import Mathlib

/-!
# Verification of the client-side analysis workflow controller

Shallow embedding of `src/frontend/src/App.jsx`: the React component's four
state fields (`file`, `analysis`, `loading`, `error`) become an explicit
record, its event handlers (`onDrop`, `analyzeDataset`, the clear button,
`resetAnalysis`) become pure transition functions, and the axios exchange is
modelled by an outcome value (success data, timeout, network failure, or a
non-2xx response).  JavaScript numbers appearing in the result payload are
modelled as rationals; JS truthiness of strings and numbers (`x || d`) is
modelled explicitly.
-/

namespace DatasetAnalyzer

/-- A selected file: the metadata the component reads (`file.name`,
`file.size`) plus the MIME type the dropzone filters on. -/
structure Candidate where
  name : String
  sizeBytes : Nat
  mimeType : String
  deriving Repr, DecidableEq

/-- One observation or suggestion card, with the fields the component
renders (`titulo`, `mensaje`, `tipo_de_reporte`). -/
structure Finding where
  titulo : String
  mensaje : String
  tipo_de_reporte : String
  deriving Repr, DecidableEq

/-- The `metricas` object of the response payload; JS floats are modelled
as rationals. -/
structure Metricas where
  porcentaje_valores_faltantes : Rat
  porcentaje_filas_duplicadas : Rat
  salud_del_dataset : Rat
  deriving Repr, DecidableEq

/-- The JSON payload stored wholesale by `setAnalysis(response.data)`,
with the structure the component accesses. -/
structure AnalysisResult where
  metricas : Metricas
  observaciones : List Finding
  sugerencias : List Finding
  deriving Repr, DecidableEq

/-- The component state: `useState` fields `file`, `analysis`, `loading`,
`error` of `App.jsx` lines 9-12. -/
structure AppState where
  file : Option Candidate
  analysis : Option AnalysisResult
  loading : Bool
  error : Option String
  deriving Repr, DecidableEq

/-- Initial state: `useState(null)`, `useState(null)`, `useState(false)`,
`useState(null)`. -/
def initialState : AppState :=
  { file := none, analysis := none, loading := false, error := none }

/-- The environment values the module reads: `import.meta.env.VITE_API_BASE_URL`
and `import.meta.env.VITE_API_TIMEOUT`; `none` models an unset variable. -/
structure Config where
  viteApiBaseUrl : Option String
  viteApiTimeout : Option String
  deriving Repr, DecidableEq

/-- JS `s || d` on an optional string: `undefined` and the empty string are
falsy and fall through to the default. -/
def jsOrString (s : Option String) (d : String) : String :=
  match s with
  | some s => if s = "" then d else s
  | none => d

/-- `API_BASE_URL = import.meta.env.VITE_API_BASE_URL || "http://localhost:8000"`
(App.jsx line 6). -/
def API_BASE_URL (env : Config) : String :=
  jsOrString env.viteApiBaseUrl "http://localhost:8000"

/-- Value of the longest leading digit run, `none` when there is no digit:
the core of JS `parseInt` in base 10. -/
def digitsVal (cs : List Char) : Option Nat :=
  let ds := cs.takeWhile Char.isDigit
  if ds.isEmpty then none
  else some (ds.foldl (fun a c => 10 * a + (c.toNat - '0'.toNat)) 0)

/-- JS `parseInt(x)` for a string-or-undefined argument, base 10: leading
whitespace is skipped, an optional sign is read, then the longest digit
run; `none` models `NaN` (no digits, or `parseInt(undefined)`). -/
def parseIntJS (s : Option String) : Option Int :=
  match s with
  | none => none
  | some s =>
    match s.toList.dropWhile Char.isWhitespace with
    | '-' :: rest => (digitsVal rest).map (fun n => -(n : Int))
    | '+' :: rest => (digitsVal rest).map (fun n => (n : Int))
    | rest => (digitsVal rest).map (fun n => (n : Int))

/-- `parseInt(import.meta.env.VITE_API_TIMEOUT) || 30000` (App.jsx line 49):
`NaN` and `0` are falsy and yield the default; any other parsed value,
negative included, is used as-is. -/
def timeoutMs (env : Config) : Int :=
  match parseIntJS env.viteApiTimeout with
  | some n => if n = 0 then 30000 else n
  | none => 30000

/-- The observable content of the one `axios.post` issued by
`analyzeDataset` (App.jsx lines 45-50). -/
structure Request where
  url : String
  timeout : Int
  fileName : String
  deriving Repr, DecidableEq

/-- The error object reaching the `catch` clause when the server answered
with a non-2xx status: `err.response` with its status and the optional
`data.detail` string. -/
structure AxiosResponseErr where
  status : Nat
  detail : Option String
  deriving Repr, DecidableEq

/-- How an `axios.post` call can fail: timeout expiry and transport
failure leave `err.response` undefined; a non-2xx response carries it. -/
inductive AxiosError where
  | timeout
  | network
  | badStatus (resp : AxiosResponseErr)
  deriving Repr, DecidableEq

/-- How the awaited `axios.post` resolves: success data or a failure. -/
inductive AxiosOutcome where
  | success (data : AnalysisResult)
  | failure (e : AxiosError)
  deriving Repr, DecidableEq

/-- `err.response?.data?.detail`: defined only when the error carries a
response. -/
def AxiosError.responseDetail : AxiosError → Option String
  | .badStatus r => r.detail
  | _ => none

/-- The message stored by the `catch` clause (App.jsx line 55):
`err.response?.data?.detail || "Error al analizar el dataset"`. -/
def catchMessage (e : AxiosError) : String :=
  jsOrString e.responseDetail "Error al analizar el dataset"

/-- `onDrop` (App.jsx lines 14-21): take the first accepted file; when one
is present, store it and clear `error` and `analysis`; otherwise do
nothing. -/
def onDrop (acceptedFiles : List Candidate) (st : AppState) : AppState :=
  match acceptedFiles.head? with
  | some selectedFile =>
      { st with file := some selectedFile, error := none, analysis := none }
  | none => st

/-- The `accept` map of the `useDropzone` call (App.jsx lines 25-28): the
MIME types the dropzone lets through. -/
def acceptedMimeTypes : List String :=
  ["text/csv",
   "application/vnd.openxmlformats-officedocument.spreadsheetml.sheet"]

/-- Whether the dropzone's type filter accepts the file. -/
def dropzoneAccepts (f : Candidate) : Bool :=
  acceptedMimeTypes.contains f.mimeType

/-- The client-detected selection failure (the dropzone's rejection of a
file of unsupported type). -/
structure ValidationError where
  reason : String
  deriving Repr, DecidableEq

/-- The selection step for a single offered file: the dropzone's type
filter either accepts the file unchanged or rejects it. -/
def select (f : Candidate) : Except ValidationError Candidate :=
  if dropzoneAccepts f then .ok f else .error { reason := "unsupported type" }

/-- Dropping a single file on the dropzone: the filtered list reaching
`onDrop` is `[f]` when the type filter accepts `f` and `[]` otherwise.
Selection never issues a network request, hence the empty request list. -/
def dropFile (f : Candidate) (st : AppState) : AppState × List Request :=
  (onDrop (if dropzoneAccepts f then [f] else []) st, [])

/-- The synchronous prefix of `analyzeDataset` (App.jsx lines 32-50): the
no-file guard sets an error and returns without a request; otherwise
`loading` is set, the error cleared, and one POST to
`{API_BASE_URL}/analyze_dataset/` with the configured timeout is issued. -/
def analyzeStart (env : Config) (st : AppState) : AppState × Option Request :=
  match st.file with
  | none =>
      ({ st with error := some "Por favor selecciona un archivo" }, none)
  | some f =>
      ({ st with loading := true, error := none },
       some { url := API_BASE_URL env ++ "/analyze_dataset/",
              timeout := timeoutMs env,
              fileName := f.name })

/-- The resumption of `analyzeDataset` after the awaited call resolves
(App.jsx lines 52-58): `try` stores the data, `catch` stores the message,
and `finally` clears `loading` on both paths. -/
def analyzeComplete (st : AppState) : AxiosOutcome → AppState
  | .success data => { st with analysis := some data, loading := false }
  | .failure e => { st with error := some (catchMessage e), loading := false }

/-- One full run of `analyzeDataset`, given how the network call would
resolve: the guard path issues no request; otherwise the single request is
issued and the completion applied. -/
def analyzeDataset (env : Config) (outcome : AxiosOutcome) (st : AppState) :
    AppState × List Request :=
  match analyzeStart env st with
  | (st1, none) => (st1, [])
  | (st1, some req) => (analyzeComplete st1 outcome, [req])

/-- A click on the analyze button (App.jsx line 95): the button carries
`disabled={loading}`, so a click while `loading` invokes no handler at
all; otherwise it runs `analyzeDataset`. -/
def analyzeButtonClick (env : Config) (outcome : AxiosOutcome)
    (st : AppState) : AppState × List Request :=
  if st.loading then (st, []) else analyzeDataset env outcome st

/-- The clear button (App.jsx line 98): `onClick={() => setFile(null)}`. -/
def clearFile (st : AppState) : AppState :=
  { st with file := none }

/-- `resetAnalysis` (App.jsx lines 61-65): clears `file`, `analysis` and
`error` (and does not touch `loading`). -/
def resetAnalysis (st : AppState) : AppState :=
  { st with file := none, analysis := none, error := none }

/-- What the component renders (App.jsx lines 75-170): the results section
when `analysis` is set, otherwise the upload section, which shows the held
file (with the button row, whose analyze button reflects `loading`) or the
empty dropzone, plus the error box when `error` is set. -/
inductive Rendering where
  | uploadIdle (errorShown : Option String)
  | uploadFileSelected (c : Candidate) (loading : Bool)
      (errorShown : Option String)
  | results (r : AnalysisResult)
  deriving Repr, DecidableEq

/-- The component's view as a function of its state. -/
def render (st : AppState) : Rendering :=
  match st.analysis with
  | some r => .results r
  | none =>
    match st.file with
    | some c => .uploadFileSelected c st.loading st.error
    | none => .uploadIdle st.error

/-- The discrete user events the component reacts to, the resolution of
the network call folded into the analyze click. -/
inductive Event where
  | drop (f : Candidate)
  | analyzeClick (outcome : AxiosOutcome)
  | clearClick
  | resetClick
  deriving Repr, DecidableEq

/-- The event-step function of the component: each user event applied to
the current state, together with the requests it issues. -/
def step (env : Config) (ev : Event) (st : AppState) : AppState × List Request :=
  match ev with
  | .drop f => dropFile f st
  | .analyzeClick outcome => analyzeButtonClick env outcome st
  | .clearClick => (clearFile st, [])
  | .resetClick => (resetAnalysis st, [])

end DatasetAnalyzer

namespace DatasetAnalyzer

/-- A sample valid selection used in concrete statements. -/
def csvCandidate : Candidate :=
  { name := "sales.csv", sizeBytes := 12288, mimeType := "text/csv" }

/-- A sample invalid selection used in concrete statements. -/
def pdfCandidate : Candidate :=
  { name := "report.pdf", sizeBytes := 2048, mimeType := "application/pdf" }

/-- A sample response payload used in concrete statements. -/
def sampleResult : AnalysisResult :=
  { metricas := { porcentaje_valores_faltantes := 5,
                  porcentaje_filas_duplicadas := 0,
                  salud_del_dataset := 95 },
    observaciones := [],
    sugerencias := [{ titulo := "Low missing data", mensaje := "ok",
                      tipo_de_reporte := "info" }] }

/-- An environment with both variables unset. -/
def defaultConfig : Config := { viteApiBaseUrl := none, viteApiTimeout := none }

/-- A FileSelected state used in concrete statements. -/
def selectedState : AppState :=
  { file := some csvCandidate, analysis := none, loading := false,
    error := none }

/-- A Submitting state used in concrete statements. -/
def submittingState : AppState :=
  { file := some csvCandidate, analysis := none, loading := true,
    error := none }

/-- C1: while a submission is in flight (`loading` true), a repeated
analyze request is a no-op: the button is disabled, so no handler runs, no
second request is issued, and the state is unchanged. -/
theorem analyze_while_loading_noop (env : Config) (outcome : AxiosOutcome)
    (st : AppState) (h : st.loading = true) :
    analyzeButtonClick env outcome st = (st, []) := by
  simp [analyzeButtonClick, h]

/-- Witness for C1 at the concrete Submitting state. -/
theorem analyze_while_loading_noop_witness :
    submittingState.loading = true ∧
    analyzeButtonClick defaultConfig (.failure .timeout) submittingState
      = (submittingState, []) :=
  ⟨rfl, analyze_while_loading_noop defaultConfig (.failure .timeout)
    submittingState rfl⟩

/-- C2 counterexample: from the same Submitting state, a timeout failure
and a network failure produce identical post-failure states (both store
only the generic message), so the three failure kinds are not pairwise
distinguishable in the post-failure state. -/
theorem timeout_network_indistinguishable :
    analyzeComplete submittingState (.failure .timeout)
      = analyzeComplete submittingState (.failure .network) := rfl

/-- C2 amended: a failed submission stores a single string: a non-2xx
response with a nonempty `detail` stores that detail (so such a service
error is recognizable), while timeout and network failures — and responses
without a usable detail — all store the same generic message. -/
theorem stored_error_message (st : AppState) (e : AxiosError) :
    (analyzeComplete st (.failure e)).error = some (catchMessage e) ∧
    catchMessage .timeout = "Error al analizar el dataset" ∧
    catchMessage .network = "Error al analizar el dataset" ∧
    (∀ s d, d ≠ "" →
      catchMessage (.badStatus { status := s, detail := some d }) = d) := by
  refine ⟨rfl, rfl, rfl, ?_⟩
  intro s d hd
  simp [catchMessage, AxiosError.responseDetail, jsOrString, hd]

/-- Witness for C2's amended theorem at a concrete 500 response. -/
theorem stored_error_message_witness :
    (analyzeComplete submittingState
      (.failure (.badStatus { status := 500, detail := some "internal error" }))).error
      = some (catchMessage (.badStatus { status := 500, detail := some "internal error" })) ∧
    catchMessage (.badStatus { status := 500, detail := some "internal error" })
      = "internal error" :=
  ⟨(stored_error_message submittingState
      (.badStatus { status := 500, detail := some "internal error" })).1,
   (stored_error_message submittingState
      (.badStatus { status := 500, detail := some "internal error" })).2.2.2
      500 "internal error" (by decide)⟩

/-- C3 counterexample: in a Failed state (candidate held, error attached),
the clear button runs only `setFile(null)`: the candidate is dropped but
the error is retained, so `clearFile` does not drop all three of
candidate, result, and error. -/
theorem clearFile_retains_error :
    (clearFile { file := some csvCandidate, analysis := none,
                 loading := false, error := some "internal error" }).error
      = some "internal error" := rfl

/-- C3 amended: `clearFile` drops only the candidate; the result, the
error, and the loading flag are all untouched — in particular an attached
error survives the clear (and in Succeeded the clear button is not
rendered at all; `resetAnalysis` plays that role there). -/
theorem clearFile_drops_only_candidate (st : AppState) :
    (clearFile st).file = none ∧
    (clearFile st).analysis = st.analysis ∧
    (clearFile st).error = st.error ∧
    (clearFile st).loading = st.loading :=
  ⟨rfl, rfl, rfl, rfl⟩

/-- C4: every failed submission retains the selected candidate unchanged
and ends with loading off and the failure message attached; the component
then renders the upload section with the file still selected and the error
shown, so the user can retry without reselecting. -/
theorem failure_retains_candidate (env : Config) (e : AxiosError)
    (st : AppState) (c : Candidate) (hf : st.file = some c)
    (ha : st.analysis = none) :
    (analyzeDataset env (.failure e) st).1.file = some c ∧
    (analyzeDataset env (.failure e) st).1.loading = false ∧
    (analyzeDataset env (.failure e) st).1.error = some (catchMessage e) ∧
    render (analyzeDataset env (.failure e) st).1
      = .uploadFileSelected c false (some (catchMessage e)) := by
  simp [analyzeDataset, analyzeStart, hf, analyzeComplete, render, ha]

/-- Witness for C4 at a concrete 500 response from the FileSelected state. -/
theorem failure_retains_candidate_witness :
    selectedState.file = some csvCandidate ∧ selectedState.analysis = none ∧
    ((analyzeDataset defaultConfig
        (.failure (.badStatus { status := 500, detail := some "internal error" }))
        selectedState).1.file = some csvCandidate ∧
     (analyzeDataset defaultConfig
        (.failure (.badStatus { status := 500, detail := some "internal error" }))
        selectedState).1.loading = false ∧
     (analyzeDataset defaultConfig
        (.failure (.badStatus { status := 500, detail := some "internal error" }))
        selectedState).1.error
        = some (catchMessage (.badStatus { status := 500, detail := some "internal error" })) ∧
     render (analyzeDataset defaultConfig
        (.failure (.badStatus { status := 500, detail := some "internal error" }))
        selectedState).1
        = .uploadFileSelected csvCandidate false
            (some (catchMessage (.badStatus { status := 500, detail := some "internal error" })))) :=
  ⟨rfl, rfl, failure_retains_candidate defaultConfig
    (.badStatus { status := 500, detail := some "internal error" })
    selectedState csvCandidate rfl rfl⟩

/-- C5: an analyze invocation entered from an interactive state ends with
loading off on every path — the no-file guard, success, timeout, network
failure, and bad status — so the machine is never left stuck in
Submitting and every error is absorbed into the stored message. -/
theorem analyze_terminates_interactive (env : Config)
    (outcome : AxiosOutcome) (st : AppState) (h : st.loading = false) :
    (analyzeDataset env outcome st).1.loading = false := by
  cases hf : st.file <;> cases outcome <;>
    simp [analyzeDataset, analyzeStart, hf, analyzeComplete, h]

/-- Witness for C5 at a concrete timeout from the FileSelected state. -/
theorem analyze_terminates_interactive_witness :
    selectedState.loading = false ∧
    (analyzeDataset defaultConfig (.failure .timeout) selectedState).1.loading
      = false :=
  ⟨rfl, analyze_terminates_interactive defaultConfig (.failure .timeout)
    selectedState rfl⟩

end DatasetAnalyzer

namespace DatasetAnalyzer

/-- C6: a valid CSV/XLSX selection succeeds and stores the candidate
itself — so `name` and `sizeBytes` are preserved exactly — replacing any
previously held candidate and clearing any prior result and error. -/
theorem select_valid_stores_candidate (f : Candidate) (st : AppState)
    (h : dropzoneAccepts f = true) :
    select f = .ok f ∧
    (dropFile f st).1
      = { st with file := some f, error := none, analysis := none } ∧
    (dropFile f st).1.file.map Candidate.name = some f.name ∧
    (dropFile f st).1.file.map Candidate.sizeBytes = some f.sizeBytes := by
  simp [select, dropFile, onDrop, h]

/-- Witness for C6: selecting the CSV sample over a state holding a
previous candidate, a stale result, and a stale error. -/
theorem select_valid_stores_candidate_witness :
    dropzoneAccepts csvCandidate = true ∧
    (select csvCandidate = .ok csvCandidate ∧
     (dropFile csvCandidate
        { file := some pdfCandidate, analysis := some sampleResult,
          loading := false, error := some "stale" }).1
       = { file := some csvCandidate, analysis := none, loading := false,
           error := none } ∧
     (dropFile csvCandidate
        { file := some pdfCandidate, analysis := some sampleResult,
          loading := false, error := some "stale" }).1.file.map Candidate.name
       = some csvCandidate.name ∧
     (dropFile csvCandidate
        { file := some pdfCandidate, analysis := some sampleResult,
          loading := false, error := some "stale" }).1.file.map Candidate.sizeBytes
       = some csvCandidate.sizeBytes) :=
  ⟨rfl, select_valid_stores_candidate csvCandidate
    { file := some pdfCandidate, analysis := some sampleResult,
      loading := false, error := some "stale" } rfl⟩

/-- C7: a selection of unsupported type fails with a ValidationError, the
state — candidate, result, error, and loading alike — is unchanged, and no
network request is issued. -/
theorem select_invalid_noop (f : Candidate) (st : AppState)
    (h : dropzoneAccepts f = false) :
    select f = .error { reason := "unsupported type" } ∧
    dropFile f st = (st, []) := by
  simp [select, dropFile, onDrop, h]

/-- Witness for C7: dropping `report.pdf` on the FileSelected state. -/
theorem select_invalid_noop_witness :
    dropzoneAccepts pdfCandidate = false ∧
    (select pdfCandidate = .error { reason := "unsupported type" } ∧
     dropFile pdfCandidate selectedState = (selectedState, [])) :=
  ⟨rfl, select_invalid_noop pdfCandidate selectedState rfl⟩

/-- C8: an analyze request with no candidate held only sets the "no file"
message: it issues no request and leaves candidate, result, and loading
unchanged. -/
theorem analyze_no_file_guard (env : Config) (outcome : AxiosOutcome)
    (st : AppState) (h : st.file = none) :
    analyzeDataset env outcome st
      = ({ st with error := some "Por favor selecciona un archivo" }, []) ∧
    (analyzeDataset env outcome st).1.file = st.file ∧
    (analyzeDataset env outcome st).1.analysis = st.analysis ∧
    (analyzeDataset env outcome st).1.loading = st.loading ∧
    (analyzeDataset env outcome st).2 = [] := by
  simp [analyzeDataset, analyzeStart, h]

/-- Witness for C8 at the initial state. -/
theorem analyze_no_file_guard_witness :
    initialState.file = none ∧
    (analyzeDataset defaultConfig (.success sampleResult) initialState
       = ({ initialState with
            error := some "Por favor selecciona un archivo" }, []) ∧
     (analyzeDataset defaultConfig (.success sampleResult) initialState).1.file
       = initialState.file ∧
     (analyzeDataset defaultConfig (.success sampleResult) initialState).1.analysis
       = initialState.analysis ∧
     (analyzeDataset defaultConfig (.success sampleResult) initialState).1.loading
       = initialState.loading ∧
     (analyzeDataset defaultConfig (.success sampleResult) initialState).2 = []) :=
  ⟨rfl, analyze_no_file_guard defaultConfig (.success sampleResult)
    initialState rfl⟩

/-- C9 counterexample: with `VITE_API_TIMEOUT="-1"` — a value that is not
a parseable positive integer — the resolved timeout is -1, not the 30000
default the claim requires. -/
theorem negative_timeout_not_defaulted :
    timeoutMs { viteApiBaseUrl := none, viteApiTimeout := some "-1" } = -1 ∧
    timeoutMs { viteApiBaseUrl := none, viteApiTimeout := some "-1" } ≠ 30000 := by
  have h1 : timeoutMs { viteApiBaseUrl := none, viteApiTimeout := some "-1" }
      = -1 := rfl
  exact ⟨h1, by rw [h1]; decide⟩

/-- C9 amended: the base URL defaults to http://localhost:8000 when the
environment value is absent; the timeout defaults to 30000 exactly when
`parseInt` of the environment value yields NaN or 0 — a nonzero parse,
negative included, is used as-is; and every submission with a held
candidate issues exactly one POST to `{baseUrl}/analyze_dataset/` with
these resolved values. -/
theorem config_resolution (env : Config) (outcome : AxiosOutcome)
    (st : AppState) (c : Candidate) (hf : st.file = some c) :
    (env.viteApiBaseUrl = none →
      API_BASE_URL env = "http://localhost:8000") ∧
    ((parseIntJS env.viteApiTimeout = none ∨
      parseIntJS env.viteApiTimeout = some 0) → timeoutMs env = 30000) ∧
    (∀ n : Int, parseIntJS env.viteApiTimeout = some n → n ≠ 0 →
      timeoutMs env = n) ∧
    (analyzeDataset env outcome st).2
      = [{ url := API_BASE_URL env ++ "/analyze_dataset/",
           timeout := timeoutMs env, fileName := c.name }] := by
  refine ⟨?_, ?_, ?_, ?_⟩
  · intro hb
    simp [API_BASE_URL, hb, jsOrString]
  · rintro (hp | hp) <;> simp [timeoutMs, hp]
  · intro n hp hn
    simp [timeoutMs, hp, hn]
  · cases outcome <;> simp [analyzeDataset, analyzeStart, hf]

/-- Witness for C9's amended theorem: the all-default environment and the
FileSelected state. -/
theorem config_resolution_witness :
    selectedState.file = some csvCandidate ∧
    ((defaultConfig.viteApiBaseUrl = none →
       API_BASE_URL defaultConfig = "http://localhost:8000") ∧
     ((parseIntJS defaultConfig.viteApiTimeout = none ∨
       parseIntJS defaultConfig.viteApiTimeout = some 0) →
       timeoutMs defaultConfig = 30000) ∧
     (∀ n : Int, parseIntJS defaultConfig.viteApiTimeout = some n → n ≠ 0 →
       timeoutMs defaultConfig = n) ∧
     (analyzeDataset defaultConfig (.success sampleResult) selectedState).2
       = [{ url := API_BASE_URL defaultConfig ++ "/analyze_dataset/",
            timeout := timeoutMs defaultConfig,
            fileName := csvCandidate.name }]) :=
  ⟨rfl, config_resolution defaultConfig (.success sampleResult)
    selectedState csvCandidate rfl⟩

/-- C10: a successful submission stores the result while the held
candidate is retained unchanged, and among all the component's events only
the clear click and the reset click ever drop a held candidate. -/
theorem success_retains_candidate (env : Config) (st : AppState)
    (r : AnalysisResult) (c : Candidate) (hf : st.file = some c) :
    (analyzeComplete st (.success r)).file = some c ∧
    (analyzeComplete st (.success r)).analysis = some r ∧
    (∀ ev : Event, (step env ev st).1.file = none →
      ev = .clearClick ∨ ev = .resetClick) := by
  refine ⟨by simp [analyzeComplete, hf], rfl, ?_⟩
  intro ev h
  cases ev with
  | drop f =>
    exfalso
    by_cases hacc : dropzoneAccepts f <;>
      simp [step, dropFile, onDrop, hacc, hf] at h
  | analyzeClick outcome =>
    exfalso
    by_cases hl : st.loading
    · rw [show step env (.analyzeClick outcome) st = (st, []) from by
        simp [step, analyzeButtonClick, hl]] at h
      rw [hf] at h
      exact Option.noConfusion h
    · cases outcome <;>
        simp [step, analyzeButtonClick, hl, analyzeDataset, analyzeStart,
          hf, analyzeComplete] at h
  | clearClick => exact Or.inl rfl
  | resetClick => exact Or.inr rfl

/-- Witness for C10 at the FileSelected state and the sample result. -/
theorem success_retains_candidate_witness :
    selectedState.file = some csvCandidate ∧
    ((analyzeComplete selectedState (.success sampleResult)).file
       = some csvCandidate ∧
     (analyzeComplete selectedState (.success sampleResult)).analysis
       = some sampleResult ∧
     (∀ ev : Event, (step defaultConfig ev selectedState).1.file = none →
       ev = .clearClick ∨ ev = .resetClick)) :=
  ⟨rfl, success_retains_candidate defaultConfig selectedState sampleResult
    csvCandidate rfl⟩

end DatasetAnalyzer
